import Mathlib

/-!
# gpsd.h: packet layer and session declarations

A shallow embedding of `gpsd.h`, the header of the gpsd library.

* The constants and function-like macros of the header (packet types,
  `TEXTUAL_PACKET_TYPE`, `GPS_PACKET_TYPE`, `LOSSLESS_PACKET_TYPE`,
  `PACKET_TYPEMASK`, `GPS_TYPEMASK`, the `gpsd_multipoll` status codes,
  `STICKY`, `packet_buffered_input`) are embedded from the header itself.  C
  `int` values are `Int`; `unsigned int` and `uint8_t` values are `Nat`, with
  an explicit reduction modulo `2^32` resp. `2^8` where a conversion happens.
  A C expression whose evaluation is undefined (a shift of a signed `int` out
  of range) is `none`.
* The macros on `struct timespec` and `struct timeval` (`TS_NORM`, `TV_NORM`,
  `TSTOTV`, `TVTOTS`) are embedded from the header as well; the widths of the
  system types `time_t` and `long` are parameters, and a result that does not
  fit is reduced modulo `2^bits`.
* The functions that the header only declares (`gpsd_poll`, `isgps_decode`,
  `packet_parse` for text sentences, `packet_accept`) are modelled from the
  specification; every such definition says so.

Definitions come first, theorems after them.
-/

namespace Gpsd

/-! ## Packet types (`struct gps_packet_t`, field `type`) -/

def BAD_PACKET : Int := -1
def COMMENT_PACKET : Int := 0
def NMEA_PACKET : Int := 1
def AIVDM_PACKET : Int := 2
def GARMINTXT_PACKET : Int := 3
def MAX_TEXTUAL_TYPE : Int := 3
def SIRF_PACKET : Int := 4
def ZODIAC_PACKET : Int := 5
def TSIP_PACKET : Int := 6
def EVERMORE_PACKET : Int := 7
def ITALK_PACKET : Int := 8
def GARMIN_PACKET : Int := 9
def NAVCOM_PACKET : Int := 10
def UBX_PACKET : Int := 11
def SUPERSTAR2_PACKET : Int := 12
def ONCORE_PACKET : Int := 13
def GEOSTAR_PACKET : Int := 14
def NMEA2000_PACKET : Int := 15
def VYSPI_PACKET : Int := 16
def SEATALK_PACKET : Int := 17
def MAX_GPSPACKET_TYPE : Int := 17
def RTCM2_PACKET : Int := 18
def RTCM3_PACKET : Int := 19
def JSON_PACKET : Int := 20

/-- The 22 packet type tags of `gpsd.h`, in the order of their `#define`s
(`MAX_TEXTUAL_TYPE` and `MAX_GPSPACKET_TYPE` are bounds, not tags). -/
def packet_types : List Int :=
  [BAD_PACKET, COMMENT_PACKET, NMEA_PACKET, AIVDM_PACKET, GARMINTXT_PACKET,
   SIRF_PACKET, ZODIAC_PACKET, TSIP_PACKET, EVERMORE_PACKET, ITALK_PACKET,
   GARMIN_PACKET, NAVCOM_PACKET, UBX_PACKET, SUPERSTAR2_PACKET, ONCORE_PACKET,
   GEOSTAR_PACKET, NMEA2000_PACKET, VYSPI_PACKET, SEATALK_PACKET,
   RTCM2_PACKET, RTCM3_PACKET, JSON_PACKET]

/-- Macro `#define TEXTUAL_PACKET_TYPE(n)
((((n)>=NMEA_PACKET) && ((n)<=MAX_TEXTUAL_TYPE)) || (n)==JSON_PACKET)`. -/
def TEXTUAL_PACKET_TYPE (n : Int) : Bool :=
  (decide (n ≥ NMEA_PACKET) && decide (n ≤ MAX_TEXTUAL_TYPE)) || decide (n = JSON_PACKET)

/-- Macro `#define GPS_PACKET_TYPE(n)
(((n)>=NMEA_PACKET) && ((n)<=MAX_GPSPACKET_TYPE))`. -/
def GPS_PACKET_TYPE (n : Int) : Bool :=
  decide (n ≥ NMEA_PACKET) && decide (n ≤ MAX_GPSPACKET_TYPE)

/-- Macro `#define LOSSLESS_PACKET_TYPE(n)
(((n)>=RTCM2_PACKET) && ((n)<=RTCM3_PACKET))`. -/
def LOSSLESS_PACKET_TYPE (n : Int) : Bool :=
  decide (n ≥ RTCM2_PACKET) && decide (n ≤ RTCM3_PACKET)

/-! ## Machine integers -/

/-- Largest value of a 32-bit C `int`. -/
def INT_MAX : Int := 2 ^ 31 - 1

/-- The C expression `a << n` on `int` operands (32 bits).  It has a value
only when `a` is non-negative, `0 <= n < 32` and `a * 2^n` is representable
in `int`; otherwise the behaviour is undefined and the model gives `none`. -/
def int_shl (a n : Int) : Option Int :=
  if 0 ≤ a ∧ 0 ≤ n ∧ n < 32 ∧ a * 2 ^ n.toNat ≤ INT_MAX then
    some (a * 2 ^ n.toNat)
  else
    none

/-- Macro `#define PACKET_TYPEMASK(n) (1 << (n))`. -/
def PACKET_TYPEMASK (n : Int) : Option Int :=
  int_shl 1 n

/-- Conversion of an `int` to `unsigned int` (reduction modulo `2^32`), as on
an assignment to the field `drivers_identified`. -/
def to_unsigned (v : Int) : Nat :=
  (v % 2 ^ 32).toNat

/-- Conversion of an `int` to `uint8_t` (reduction modulo `2^8`), as on a
store into an entry of `uint8_t out_type[MAX_OUT_BUF_RECORDS]`. -/
def to_uint8 (v : Int) : Nat :=
  (v % 2 ^ 8).toNat

/-- Reading a `uint8_t` entry back as an `int` (integer promotion: the value
is kept). -/
def uint8_to_int (b : Nat) : Int :=
  (b : Int)

/-- Store a type tag into an `out_type` entry and read the entry back. -/
def out_type_roundtrip (t : Int) : Int :=
  uint8_to_int (to_uint8 t)

/-! ## `gpsd_multipoll` status codes -/

def DEVICE_EOF : Int := -3
def DEVICE_ERROR : Int := -2
def DEVICE_UNREADY : Int := -1
def DEVICE_READY : Int := 1
def DEVICE_UNCHANGED : Int := 0

/-- The five status codes, in the order of their `#define`s. -/
def device_status_codes : List Int :=
  [DEVICE_EOF, DEVICE_ERROR, DEVICE_UNREADY, DEVICE_READY, DEVICE_UNCHANGED]

/-! ## Driver flags and `STICKY` -/

/-- Constant `#define DRIVER_NOFLAGS 0x00000000u`. -/
def DRIVER_NOFLAGS : Nat := 0x00000000
/-- Constant `#define DRIVER_STICKY 0x00000001u`. -/
def DRIVER_STICKY : Nat := 0x00000001

/-- The data members of `struct gps_type_t` that are present in every build
configuration.  The method pointers are kept as "is non-null" flags. -/
structure gps_type_t where
  type_name : String
  packet_type : Int
  flags : Nat
  trigger : Option String
  channels : Int
  probe_detect : Bool
  get_packet : Bool
  parse_packet : Bool
  rtcm_writer : Bool
  event_hook : Bool
deriving DecidableEq, Repr

/-- Macro `#define STICKY(dp) ((dp) != NULL && ((dp)->flags & DRIVER_STICKY) != 0)`;
a null `dp` is `none`. -/
def STICKY (dp : Option gps_type_t) : Bool :=
  match dp with
  | none => false
  | some d => (d.flags &&& DRIVER_STICKY) != 0

/-! ## Session controller

The header declares the session object `struct gps_device_t` (fields
`device_type`, `badcount`, `observed`, `packet.counter`) and `gpsd_poll`, but
not the body of `gpsd_poll`.  The controller below follows sections 3 and 4.5
of the specification. -/

/-- Modelled from the spec: the states of the Session/Device Controller,
"State machine over {no-driver, trial, locked, reverted}" (the body of
`gpsd_poll` is missing). -/
inductive session_mode where
  | no_driver
  | trial
  | locked
  | reverted
deriving DecidableEq, Repr

/-- Modelled from the spec: the two thresholds of section 4.5, which the
specification treats as configuration values: the number of consecutive valid
packets that locks a driver and the bad-packet threshold (their constants in
the body of `gpsd_poll` are missing). -/
structure session_config where
  lock_threshold : Nat
  bad_threshold : Nat
deriving DecidableEq, Repr

/-- Modelled from the spec: the Session State of section 3 (the body of
`gpsd_poll`, which mutates it, is missing): the selected driver (`device_type`,
nullable), the bitmask of observed protocol types (`observed`), the sticky
flag, the consecutive-bad-packet counter (`badcount`) and the count of packets
since the last driver change (`packet.counter`), together with the controller
state of section 4.5. -/
structure session_t where
  mode : session_mode
  device_type : Option gps_type_t
  observed : Nat
  sticky : Bool
  badcount : Nat
  counter : Nat
deriving DecidableEq, Repr

/-- Modelled from the spec: what one read cycle of the controller can meet
(the body of `gpsd_poll` is missing): a valid packet of some protocol type, a
malformed packet, an external request to re-probe the device, an external
deactivation. -/
inductive session_event where
  | packet (type : Int)
  | malformed
  | reprobe
  | deactivate
deriving DecidableEq, Repr

/-- Modelled from the spec: a valid packet arrives while the controller is in
trial (part of the missing body of `gpsd_poll`).  A packet of the selected
driver counts towards the lock; "N consecutive valid packets from the same
driver ... sets the sticky flag".  A packet of another driver re-selects and
restarts the count. -/
def trial_packet (cfg : session_config) (lookup : Int → Option gps_type_t)
    (s : session_t) (type : Int) : session_t :=
  let seen := s.observed ||| (1 <<< type.toNat)
  if lookup type = s.device_type then
    if cfg.lock_threshold ≤ s.counter + 1 then
      { s with mode := session_mode.locked, sticky := true, observed := seen,
               counter := s.counter + 1, badcount := 0 }
    else
      { s with observed := seen, counter := s.counter + 1, badcount := 0 }
  else
    { s with device_type := lookup type, observed := seen, counter := 1, badcount := 0 }

/-- Modelled from the spec: a malformed packet arrives while the controller is
locked (part of the missing body of `gpsd_poll`).  "locked packets that fail
checksum increment the bad-packet counter but do NOT cause re-selection while
below a configurable bad-packet threshold"; "locked -> trial: bad-packet
counter exceeds threshold ...; sticky flag cleared, counter reset". -/
def locked_malformed (cfg : session_config) (s : session_t) : session_t :=
  if cfg.bad_threshold < s.badcount + 1 then
    { s with mode := session_mode.trial, sticky := false, badcount := 0 }
  else
    { s with badcount := s.badcount + 1 }

/-- Modelled from the spec: one transition of the Session/Device Controller
of section 4.5 (the body of `gpsd_poll` is missing); `lookup` is the Driver
Registry.  A valid packet of the selected driver met while locked ends the run
of consecutive bad packets and is counted; any other pair of state and event
for which section 4.5 lists no transition leaves the session unchanged. -/
def session_step (cfg : session_config) (lookup : Int → Option gps_type_t)
    (s : session_t) (ev : session_event) : session_t :=
  match ev, s.mode with
  | session_event.deactivate, _ =>
    { s with mode := session_mode.reverted, device_type := none, sticky := false,
             badcount := 0, counter := 0 }
  | session_event.packet type, session_mode.no_driver =>
    { s with mode := session_mode.trial, device_type := lookup type,
             observed := s.observed ||| (1 <<< type.toNat), counter := 1, badcount := 0 }
  | session_event.packet type, session_mode.reverted =>
    { s with mode := session_mode.trial, device_type := lookup type,
             observed := s.observed ||| (1 <<< type.toNat), counter := 1, badcount := 0 }
  | session_event.packet type, session_mode.trial => trial_packet cfg lookup s type
  | session_event.packet type, session_mode.locked =>
    if lookup type = s.device_type then
      { s with observed := s.observed ||| (1 <<< type.toNat), counter := s.counter + 1,
               badcount := 0 }
    else s
  | session_event.malformed, session_mode.locked => locked_malformed cfg s
  | session_event.malformed, _ => s
  | session_event.reprobe, session_mode.locked =>
    { s with mode := session_mode.trial, sticky := false, badcount := 0 }
  | session_event.reprobe, _ => s

/-- Feed `k` malformed packets in a row to the controller. -/
def feed_malformed (cfg : session_config) (lookup : Int → Option gps_type_t)
    (s : session_t) : Nat → session_t
  | 0 => s
  | k + 1 => feed_malformed cfg lookup (session_step cfg lookup s session_event.malformed) k

/-- A sample driver: a sticky driver for `NMEA_PACKET`. -/
def sample_driver : gps_type_t :=
  { type_name := "Generic NMEA", packet_type := NMEA_PACKET, flags := DRIVER_STICKY,
    trigger := none, channels := 12, probe_detect := false, get_packet := true,
    parse_packet := true, rtcm_writer := false, event_hook := false }

/-- A sample Driver Registry: the sample driver for `NMEA_PACKET`, nothing
else. -/
def sample_registry (type : Int) : Option gps_type_t :=
  if type = NMEA_PACKET then some sample_driver else none

/-- Sample thresholds: one valid packet locks, more than two bad packets in a
row return the session to trial. -/
def sample_config : session_config :=
  { lock_threshold := 1, bad_threshold := 2 }

/-- A sample session: locked on the sample driver, with one bad packet counted
and five packets since the driver was selected. -/
def sample_session : session_t :=
  { mode := session_mode.locked, device_type := some sample_driver, observed := 2,
    sticky := true, badcount := 1, counter := 5 }

/-! ## Bit deframer

The header declares the deframer context (`struct gps_packet_t`, member
`isgps`), `enum isgpsstat_t` and the prototypes of `isgps_init`,
`isgps_decode` and `isgps_parity`, but not their bodies.  The deframer below
follows section 4.2 of the specification. -/

/-- Constant `#define NMEA_MAX 91`, "max length of NMEA sentence". -/
def NMEA_MAX : Nat := 91

/-- Constant `#define NMEA_BIG_BUF (2*NMEA_MAX+1)`, "longer than longest NMEA
sentence". -/
def NMEA_BIG_BUF : Nat := 2 * NMEA_MAX + 1

/-- Constant `#define MAX_PACKET_LENGTH 516`, with the comment `7 + 506 + 3`. -/
def MAX_PACKET_LENGTH : Nat := 516

/-- The size of the arrays `inbuffer` and `outbuffer` of `struct gps_packet_t`,
`MAX_PACKET_LENGTH*2+1`. -/
def PACKET_BUFFER_SIZE : Nat := MAX_PACKET_LENGTH * 2 + 1

/-- Constant `#define MAX_OUT_BUF_RECORDS 312`, the size of the arrays
`out_type`, `out_new_version`, `out_offset` and `out_len`. -/
def MAX_OUT_BUF_RECORDS : Nat := 312

/-- The character `$`, the sync signature of the text format. -/
def CH_DOLLAR : Nat := 36
/-- The character `*`, which ends the body and starts the checksum. -/
def CH_STAR : Nat := 42
/-- Carriage return, the first byte of the line termination. -/
def CH_CR : Nat := 13
/-- Line feed, the last byte of the line termination. -/
def CH_LF : Nat := 10
/-- Modelled from the spec: the Framing State of sections 3 and 4.3 (the body
of `packet_parse` is missing), "*idle*, *candidate(type)* ..., *body*,
*awaiting-terminator-or-length*, *checksum*, *complete*, *malformed*".  The
body carries the sum of its characters so far, the checksum state that sum and
the first checksum digit once read, and the terminator state whether the
carriage return has been read. -/
inductive frame_state where
  | idle
  | candidate (type : Int)
  | body (sum : Nat)
  | checksum (sum : Nat) (high : Option Nat)
  | awaiting_terminator (cr : Bool)
  | complete
  | malformed
deriving DecidableEq, Repr

/-- The hexadecimal digit of a value below 16. -/
def hex_digit (v : Nat) : Nat :=
  if v < 10 then 48 + v else 55 + v

/-- The members of the lexer object `struct gps_packet_t` that the framing
uses: the packet type `type`, the framing state `state`, the receive buffer
`inbuffer` with its read cursor `inbufptr` (as an offset into `inbuffer`;
`inbuflen` is the length of `inbuffer`), the out-buffer `outbuffer` that
receives an accepted packet (`outbuflen` is its length), and the description
of its sub-records: their number `out_count` and, in the entries below
`out_count` of the arrays `out_type`, `out_offset` and `out_len`, the type
tag, offset and length of each.  The header keeps `state` as an `unsigned
int`; the values it takes are not in the header and are those of
`frame_state`. -/
structure gps_packet_t where
  type : Int
  state : frame_state
  inbuffer : List Nat
  inbufptr : Nat
  outbuffer : List Nat
  out_count : Nat
  out_type : List Nat
  out_offset : List Nat
  out_len : List Nat
deriving DecidableEq, Repr

/-- Modelled from the spec: `packet_init`, whose body is missing: an empty
buffer in the initial state "outside-packet". -/
def packet_init : gps_packet_t :=
  { type := BAD_PACKET, state := frame_state.idle, inbuffer := [], inbufptr := 0,
    outbuffer := [], out_count := 0, out_type := [], out_offset := [], out_len := [] }

/-- The text sentence with body `b` and checksum digits `d1`, `d2`:
`$`, the body, `*`, the two digits, carriage return, line feed. -/
def nmea_frame (b : List Nat) (d1 d2 : Nat) : List Nat :=
  CH_DOLLAR :: (b ++ [CH_STAR, d1, d2, CH_CR, CH_LF])

/-- The first checksum digit of a body: the high half of the sum of its
characters modulo 256. -/
def checksum_high (b : List Nat) : Nat :=
  hex_digit (b.sum % 256 / 16)

/-- The second checksum digit of a body. -/
def checksum_low (b : List Nat) : Nat :=
  hex_digit (b.sum % 256 % 16)

/-- The valid packet with body `b`. -/
def nmea_packet (b : List Nat) : List Nat :=
  nmea_frame b (checksum_high b) (checksum_low b)

/-- The lexer right after the bytes `buf` were buffered into a fresh lexer. -/
def lexer_on (buf : List Nat) : gps_packet_t :=
  { packet_init with inbuffer := buf }

/-- A sample buffer content: the two sentences `$A*41` and `$B*42` with their
line terminations. -/
def two_sentences : List (List Nat) :=
  [[36, 65, 42, 52, 49, 13, 10], [36, 66, 42, 52, 50, 13, 10]]

/-- A lexer that holds the two sample sentences, with the read cursor at their
end. -/
def two_sentence_lexer : gps_packet_t :=
  { lexer_on two_sentences.flatten with inbufptr := two_sentences.flatten.length }

/-- A sample of 313 sub-records of three bytes, `AB` and a comma: 939 bytes. -/
def overfull_records : List (List Nat) :=
  List.replicate 313 [65, 66, 44]

/-- Macro `#define packet_buffered_input(lexer)
((lexer)->inbuffer + (lexer)->inbuflen - (lexer)->inbufptr)`, a difference of
pointers.  `base` is the address of the array `inbuffer`; the read cursor
`inbufptr` points `lexer.inbufptr` bytes into the array and `inbuflen` is the
number of buffered bytes. -/
def packet_buffered_input (base : Nat) (lexer : gps_packet_t) : Int :=
  ((base + lexer.inbuffer.length : Nat) : Int) - ((base + lexer.inbufptr : Nat) : Int)

/-! ## The mask of the GPS packet types -/

/-- Conversion of an `unsigned int` bit pattern to the `int` it stands for in
two's complement. -/
def of_unsigned (u : Nat) : Int :=
  if u < 2 ^ 31 then (u : Int) else (u : Int) - 2 ^ 32

/-- The C expression `~a` on an `int`. -/
def int_not (a : Int) : Int :=
  -a - 1

/-- The C expression `a & b` on `int` operands: the bitwise and of their 32-bit
two's complement patterns. -/
def int_and (a b : Int) : Int :=
  of_unsigned (to_unsigned a &&& to_unsigned b)

/-- Macro `#define GPS_TYPEMASK
(((2<<(MAX_GPSPACKET_TYPE+1))-1) &~ PACKET_TYPEMASK(COMMENT_PACKET))`. -/
def GPS_TYPEMASK : Option Int :=
  match int_shl 2 (MAX_GPSPACKET_TYPE + 1), PACKET_TYPEMASK COMMENT_PACKET with
  | some a, some m => some (int_and (a - 1) (int_not m))
  | _, _ => none

/-- The C expression `GPS_TYPEMASK & PACKET_TYPEMASK(n)`. -/
def gps_typemask_bit (n : Int) : Option Int :=
  match GPS_TYPEMASK, PACKET_TYPEMASK n with
  | some g, some m => some (int_and g m)
  | _, _ => none

/-! ## Time

`struct timespec` and `struct timeval` come from the system headers; their
members have the signed types `time_t` and `long`, whose widths the header
does not fix.  The widths are parameters here: `tw` bits for `time_t` and `lw`
bits for `long`.  Where the result of an operation does not fit the type it is
reduced into the range of the type, modulo `2^bits`: that is what a two's
complement machine computes, and C leaves the overflow undefined. -/

/-- Constant `#define GPS_EPOCH 315964800`. -/
def GPS_EPOCH : Int := 315964800

/-- Constant `#define SECS_PER_DAY (60*60*24)`. -/
def SECS_PER_DAY : Int := 60 * 60 * 24

/-- Constant `#define SECS_PER_WEEK (7*SECS_PER_DAY)`. -/
def SECS_PER_WEEK : Int := 7 * SECS_PER_DAY

/-- Constant `#define GPS_ROLLOVER (1024*SECS_PER_WEEK)`. -/
def GPS_ROLLOVER : Int := 1024 * SECS_PER_WEEK

/-- Whether `v` is a value of the signed type of `bits` bits, from
`-2^(bits-1)` to `2^(bits-1) - 1`. -/
def fits (bits : Nat) (v : Int) : Bool :=
  decide (-(2 ^ (bits - 1)) ≤ v) && decide (v < 2 ^ (bits - 1))

/-- The value of the signed type of `bits` bits that an arithmetic result `v`
is stored as: `v` itself when it fits, otherwise `v` reduced modulo `2^bits`
into the range of the type. -/
def wrap_int (bits : Nat) (v : Int) : Int :=
  (v + 2 ^ (bits - 1)) % (2 * 2 ^ (bits - 1)) - 2 ^ (bits - 1)

/-- The members of the system type `struct timespec`. -/
structure timespec where
  tv_sec : Int
  tv_nsec : Int
deriving DecidableEq, Repr

/-- The members of the system type `struct timeval`. -/
structure timeval where
  tv_sec : Int
  tv_usec : Int
deriving DecidableEq, Repr

/-- Macro `TS_NORM(ts)`, "normalize a timespec": one second is carried when
`tv_nsec` is at least 1000000000, one is borrowed when it is negative.  The
subtraction from and the addition to `tv_nsec` stay within the type where
they are executed; `tv_sec++` and `tv_sec--` are computed in `time_t`. -/
def TS_NORM (tw : Nat) (ts : timespec) : timespec :=
  if 1000000000 ≤ ts.tv_nsec then
    { tv_nsec := ts.tv_nsec - 1000000000, tv_sec := wrap_int tw (ts.tv_sec + 1) }
  else if 0 > ts.tv_nsec then
    { tv_nsec := ts.tv_nsec + 1000000000, tv_sec := wrap_int tw (ts.tv_sec - 1) }
  else ts

/-- Macro `TV_NORM(tv)`, "normalize a timeval": one second is carried when
`tv_usec` is at least 1000000, one is borrowed when it is negative.  The
subtraction from and the addition to `tv_usec` stay within the type where
they are executed; `tv_sec++` and `tv_sec--` are computed in `time_t`. -/
def TV_NORM (tw : Nat) (tv : timeval) : timeval :=
  if 1000000 ≤ tv.tv_usec then
    { tv_usec := tv.tv_usec - 1000000, tv_sec := wrap_int tw (tv.tv_sec + 1) }
  else if 0 > tv.tv_usec then
    { tv_usec := tv.tv_usec + 1000000, tv_sec := wrap_int tw (tv.tv_sec - 1) }
  else tv

/-- Macro `TSTOTV(tv, ts)`, "convert timespec to timeval, with rounding":
`tv_nsec + 500` is computed in `long`, and the division of C truncates towards
zero. -/
def TSTOTV (tw lw : Nat) (ts : timespec) : timeval :=
  TV_NORM tw { tv_sec := ts.tv_sec, tv_usec := Int.tdiv (wrap_int lw (ts.tv_nsec + 500)) 1000 }

/-- Macro `TVTOTS(ts, tv)`, "convert timeval to timespec": `tv_usec*1000` is
computed in `long`. -/
def TVTOTS (tw lw : Nat) (tv : timeval) : timespec :=
  TS_NORM tw { tv_sec := tv.tv_sec, tv_nsec := wrap_int lw (tv.tv_usec * 1000) }

/-- The instant of a timespec, in nanoseconds. -/
def timespec_ns (ts : timespec) : Int :=
  ts.tv_sec * 10 ^ 9 + ts.tv_nsec

/-- The instant of a timeval, in microseconds. -/
def timeval_us (tv : timeval) : Int :=
  tv.tv_sec * 10 ^ 6 + tv.tv_usec

/-! ## The civil calendar

Unix time as the comment of `GPS_EPOCH` reads it: seconds since 1970-01-01
00:00:00 UTC, every day counted with `SECS_PER_DAY` seconds. -/

/-- Whether `y` is a leap year of the Gregorian calendar. -/
def is_leap_year (y : Nat) : Bool :=
  (y % 4 == 0 && y % 100 != 0) || y % 400 == 0

/-- The number of days of the year `y`. -/
def days_in_year (y : Nat) : Nat :=
  if is_leap_year y then 366 else 365

/-- The number of days of month `m` (1 to 12) of the year `y`. -/
def days_in_month (y m : Nat) : Nat :=
  if m = 2 then (if is_leap_year y then 29 else 28)
  else if m = 4 ∨ m = 6 ∨ m = 9 ∨ m = 11 then 30
  else 31

/-- The days from 1 January 1970 to 1 January of the year `y`. -/
def days_before_year (y : Nat) : Nat :=
  ((List.range (y - 1970)).map (fun i => days_in_year (1970 + i))).sum

/-- The days from 1 January of the year `y` to the first of its month `m`. -/
def days_before_month (y m : Nat) : Nat :=
  ((List.range (m - 1)).map (fun i => days_in_month y (i + 1))).sum

/-- The Unix time of 00:00:00 UTC on day `d` of month `m` of year `y`, for a
date from 1970 on. -/
def unix_midnight (y m d : Nat) : Int :=
  ((days_before_year y + days_before_month y m + (d - 1) : Nat) : Int) * SECS_PER_DAY

/-! # Theorems -/

/-- Membership in the tag list, as a range condition. -/
theorem mem_packet_types (n : Int) : n ∈ packet_types ↔ (-1 ≤ n ∧ n ≤ 20) := by
  simp only [packet_types, BAD_PACKET, COMMENT_PACKET, NMEA_PACKET, AIVDM_PACKET,
    GARMINTXT_PACKET, SIRF_PACKET, ZODIAC_PACKET, TSIP_PACKET, EVERMORE_PACKET,
    ITALK_PACKET, GARMIN_PACKET, NAVCOM_PACKET, UBX_PACKET, SUPERSTAR2_PACKET,
    ONCORE_PACKET, GEOSTAR_PACKET, NMEA2000_PACKET, VYSPI_PACKET, SEATALK_PACKET,
    RTCM2_PACKET, RTCM3_PACKET, JSON_PACKET, List.mem_cons, List.not_mem_nil, or_false]
  omega

/-- C1: the 22 packet type tags have pairwise distinct values, and the values
are exactly the integers from -1 to 20. -/
theorem packet_types_closed :
    packet_types.length = 22 ∧ packet_types.Nodup ∧
      ∀ n : Int, n ∈ packet_types ↔ (-1 ≤ n ∧ n ≤ 20) :=
  ⟨rfl, by decide, mem_packet_types⟩

/-- C2: `LOSSLESS_PACKET_TYPE(n)` holds exactly for `RTCM2_PACKET` and
`RTCM3_PACKET`, and never together with `GPS_PACKET_TYPE(n)` or with
`TEXTUAL_PACKET_TYPE(n)`. -/
theorem lossless_packet_type_exact (n : Int) :
    (LOSSLESS_PACKET_TYPE n = true ↔ (n = RTCM2_PACKET ∨ n = RTCM3_PACKET)) ∧
      ¬ (LOSSLESS_PACKET_TYPE n = true ∧ GPS_PACKET_TYPE n = true) ∧
      ¬ (LOSSLESS_PACKET_TYPE n = true ∧ TEXTUAL_PACKET_TYPE n = true) := by
  simp only [LOSSLESS_PACKET_TYPE, GPS_PACKET_TYPE, TEXTUAL_PACKET_TYPE, RTCM2_PACKET,
    RTCM3_PACKET, NMEA_PACKET, MAX_GPSPACKET_TYPE, MAX_TEXTUAL_TYPE, JSON_PACKET,
    Bool.and_eq_true, Bool.or_eq_true, decide_eq_true_eq]
  omega

/-- C3: `TEXTUAL_PACKET_TYPE(n)` holds exactly for `NMEA_PACKET`,
`AIVDM_PACKET`, `GARMINTXT_PACKET` and `JSON_PACKET`; it is false for
`COMMENT_PACKET`, for `BAD_PACKET` and for every binary vendor type from
`SIRF_PACKET` to `SEATALK_PACKET`. -/
theorem textual_packet_type_exact :
    (∀ n : Int, TEXTUAL_PACKET_TYPE n = true ↔
        (n = NMEA_PACKET ∨ n = AIVDM_PACKET ∨ n = GARMINTXT_PACKET ∨ n = JSON_PACKET)) ∧
      TEXTUAL_PACKET_TYPE COMMENT_PACKET = false ∧
      TEXTUAL_PACKET_TYPE BAD_PACKET = false ∧
      ∀ n : Int, SIRF_PACKET ≤ n ∧ n ≤ SEATALK_PACKET → TEXTUAL_PACKET_TYPE n = false := by
  refine ⟨?_, by decide, by decide, ?_⟩
  · intro n
    simp only [TEXTUAL_PACKET_TYPE, NMEA_PACKET, AIVDM_PACKET, GARMINTXT_PACKET,
      MAX_TEXTUAL_TYPE, JSON_PACKET, Bool.and_eq_true, Bool.or_eq_true, decide_eq_true_eq]
    omega
  · intro n hn
    rw [← Bool.not_eq_true]
    simp only [TEXTUAL_PACKET_TYPE, NMEA_PACKET, SIRF_PACKET, SEATALK_PACKET,
      MAX_TEXTUAL_TYPE, JSON_PACKET, Bool.and_eq_true, Bool.or_eq_true, decide_eq_true_eq] at hn ⊢
    omega

/-- For a tag in range the mask is defined and is the power of two `2^n`. -/
theorem PACKET_TYPEMASK_eq (n : Int) (h0 : 0 ≤ n) (h1 : n ≤ 20) :
    PACKET_TYPEMASK n = some ((2 ^ n.toNat : Nat) : Int) := by
  obtain ⟨k, rfl⟩ := Int.eq_ofNat_of_zero_le h0
  have hk : k ≤ 20 := by omega
  have hpow : (2 : Nat) ^ k ≤ 2 ^ 20 := Nat.pow_le_pow_right (by norm_num) hk
  have hcond : (0 : Int) ≤ 1 ∧ (0 : Int) ≤ (k : Int) ∧ (k : Int) < 32 ∧
      (1 : Int) * 2 ^ (k : Int).toNat ≤ INT_MAX := by
    refine ⟨by norm_num, h0, by omega, ?_⟩
    have : ((2 ^ k : Nat) : Int) ≤ 2 ^ 20 := by exact_mod_cast hpow
    simp only [Int.toNat_ofNat, INT_MAX, one_mul]
    push_cast at this
    omega
  simp only [PACKET_TYPEMASK, int_shl, if_pos hcond]
  simp

/-- C4: for every type tag `n` with `0 <= n <= 20`, `PACKET_TYPEMASK(n)` is
defined, non-zero, below `2^31`, has exactly one bit set and is unchanged by
the conversion to `unsigned`; and two tags in that range with equal masks are
equal. -/
theorem packet_typemask_one_bit (m n : Int) (hm : 0 ≤ m ∧ m ≤ 20) (hn : 0 ≤ n ∧ n ≤ 20) :
    (∃ v : Int, PACKET_TYPEMASK n = some v ∧ v ≠ 0 ∧ 0 < v ∧ v < 2 ^ 31 ∧
        (∃! k : Nat, v.toNat.testBit k = true) ∧ (to_unsigned v : Int) = v) ∧
      (PACKET_TYPEMASK m = PACKET_TYPEMASK n → m = n) := by
  have em := PACKET_TYPEMASK_eq m hm.1 hm.2
  have en := PACKET_TYPEMASK_eq n hn.1 hn.2
  obtain ⟨a, rfl⟩ := Int.eq_ofNat_of_zero_le hm.1
  obtain ⟨b, rfl⟩ := Int.eq_ofNat_of_zero_le hn.1
  simp only [Int.toNat_ofNat] at em en
  have hb : b ≤ 20 := by omega
  have hpow : (2 : Nat) ^ b ≤ 2 ^ 20 := Nat.pow_le_pow_right (by norm_num) hb
  have hpos : 0 < (2 : Nat) ^ b := Nat.pow_pos (by norm_num)
  refine ⟨⟨((2 ^ b : Nat) : Int), en, ?_, ?_, ?_, ?_, ?_⟩, ?_⟩
  · have : (0 : Int) < ((2 ^ b : Nat) : Int) := by exact_mod_cast hpos
    omega
  · exact_mod_cast hpos
  · have : ((2 ^ b : Nat) : Int) ≤ ((2 ^ 20 : Nat) : Int) := by exact_mod_cast hpow
    norm_num at this ⊢
    omega
  · refine ⟨b, ?_, ?_⟩
    · simp only [Int.toNat_ofNat, Nat.testBit_two_pow, decide_True]
    · intro k hk
      simp only [Int.toNat_ofNat, Nat.testBit_two_pow, decide_eq_true_eq] at hk
      exact hk.symm
  · have h1 : ((2 ^ b : Nat) : Int) ≤ ((2 ^ 20 : Nat) : Int) := by exact_mod_cast hpow
    have h0 : (0 : Int) ≤ ((2 ^ b : Nat) : Int) := by exact_mod_cast hpos.le
    unfold to_unsigned
    rw [Int.toNat_of_nonneg (Int.emod_nonneg _ (by norm_num))]
    apply Int.emod_eq_of_lt h0
    norm_num at h1 ⊢
    omega
  · intro h
    rw [em, en] at h
    have h2 : (2 : Nat) ^ a = 2 ^ b := by exact_mod_cast Option.some.inj h
    have := Nat.pow_right_injective (le_refl 2) h2
    exact_mod_cast this

/-- C4 at the tags `SEATALK_PACKET` (17) and `JSON_PACKET` (20). -/
theorem packet_typemask_one_bit_witness :
    (∃ v : Int, PACKET_TYPEMASK 20 = some v ∧ v ≠ 0 ∧ 0 < v ∧ v < 2 ^ 31 ∧
        (∃! k : Nat, v.toNat.testBit k = true) ∧ (to_unsigned v : Int) = v) ∧
      (PACKET_TYPEMASK 17 = PACKET_TYPEMASK 20 → (17 : Int) = 20) :=
  packet_typemask_one_bit 17 20 (by decide) (by decide)

/-- C5: the five `gpsd_multipoll` status codes are pairwise distinct;
`DEVICE_EOF` and `DEVICE_ERROR` are negative and differ from `DEVICE_UNREADY`
and from `DEVICE_UNCHANGED`; `DEVICE_READY` and `DEVICE_UNCHANGED` are
non-negative. -/
theorem device_status_codes_distinct :
    device_status_codes.Nodup ∧
      DEVICE_EOF < 0 ∧ DEVICE_ERROR < 0 ∧
      DEVICE_EOF ≠ DEVICE_UNREADY ∧ DEVICE_EOF ≠ DEVICE_UNCHANGED ∧
      DEVICE_ERROR ≠ DEVICE_UNREADY ∧ DEVICE_ERROR ≠ DEVICE_UNCHANGED ∧
      0 ≤ DEVICE_READY ∧ 0 ≤ DEVICE_UNCHANGED := by
  decide

/-- C6, as stated, fails at `BAD_PACKET`: stored into a `uint8_t` entry of
`out_type` and read back, the tag -1 comes back as 255. -/
theorem out_type_roundtrip_bad_packet :
    BAD_PACKET ∈ packet_types ∧ out_type_roundtrip BAD_PACKET = 255 ∧
      out_type_roundtrip BAD_PACKET ≠ BAD_PACKET := by
  decide

/-- C6, amended: every type tag other than `BAD_PACKET`, that is every tag from
`COMMENT_PACKET` to `JSON_PACKET`, is read back unchanged from a `uint8_t`
entry of `out_type`. -/
theorem out_type_roundtrip_tag (t : Int) (ht : t ∈ packet_types) (hb : t ≠ BAD_PACKET) :
    out_type_roundtrip t = t := by
  have h := (mem_packet_types t).1 ht
  have h0 : 0 ≤ t := by
    simp only [BAD_PACKET] at hb
    omega
  unfold out_type_roundtrip uint8_to_int to_uint8
  rw [Int.toNat_of_nonneg (Int.emod_nonneg _ (by norm_num))]
  apply Int.emod_eq_of_lt h0
  norm_num
  omega

/-- C6 amended, at `JSON_PACKET`. -/
theorem out_type_roundtrip_tag_witness :
    out_type_roundtrip JSON_PACKET = JSON_PACKET :=
  out_type_roundtrip_tag JSON_PACKET (by decide) (by decide)

/-- C7: `STICKY(dp)` holds exactly when `dp` is non-null and bit 0
(`DRIVER_STICKY`) of its flags is set; it is false for a null `dp` and for
flags `DRIVER_NOFLAGS`, and for every driver its value is determined by the
lowest bit of the flags alone. -/
theorem sticky_exact :
    (∀ dp : Option gps_type_t,
        STICKY dp = true ↔ ∃ d, dp = some d ∧ d.flags.testBit 0 = true) ∧
      STICKY none = false ∧
      (∀ d : gps_type_t, d.flags = DRIVER_NOFLAGS → STICKY (some d) = false) ∧
      (∀ d : gps_type_t, STICKY (some d) = decide (d.flags % 2 = 1)) ∧
      (∀ d e : gps_type_t, d.flags % 2 = e.flags % 2 → STICKY (some d) = STICKY (some e)) := by
  have key : ∀ d : gps_type_t, STICKY (some d) = decide (d.flags % 2 = 1) := by
    intro d
    simp only [STICKY, DRIVER_STICKY, Nat.and_one_is_mod]
    rcases Nat.mod_two_eq_zero_or_one d.flags with h | h <;> simp [h]
  refine ⟨?_, rfl, ?_, key, ?_⟩
  · intro dp
    cases dp with
    | none => simp [STICKY]
    | some d =>
      rw [key d]
      simp [Nat.testBit_zero]
  · intro d hd
    rw [key d, hd]
    rfl
  · intro d e h
    rw [key d, key e, h]

/-- Below the threshold, `k` malformed packets in a row only add `k` to the
bad-packet counter of a locked session. -/
theorem feed_malformed_below (cfg : session_config) (lookup : Int → Option gps_type_t)
    (k : Nat) (s : session_t) (h : s.mode = session_mode.locked)
    (hk : s.badcount + k ≤ cfg.bad_threshold) :
    feed_malformed cfg lookup s k = { s with badcount := s.badcount + k } := by
  induction k generalizing s with
  | zero => simp [feed_malformed]
  | succ k ih =>
    have hstep : session_step cfg lookup s session_event.malformed =
        { s with badcount := s.badcount + 1 } := by
      have hlt : ¬ cfg.bad_threshold < s.badcount + 1 := by omega
      simp [session_step, h, locked_malformed, hlt]
    rw [feed_malformed, hstep,
      ih { s with badcount := s.badcount + 1 } h (by show s.badcount + 1 + k ≤ _; omega)]
    simp only [session_t.mk.injEq, true_and, and_true]
    omega

/-- C9: for a session locked on a driver, one malformed packet never changes
the selected driver; while the incremented bad-packet counter does not exceed
the threshold it changes nothing but that counter, which grows by one; the
session is back in trial exactly when the incremented counter exceeds the
threshold, and then the sticky flag is cleared and the counter reset.  Hence a
run of malformed packets keeps the session locked up to the threshold and
returns it to trial with the packet that exceeds it. -/
theorem stickiness (cfg : session_config) (lookup : Int → Option gps_type_t)
    (s : session_t) (h : s.mode = session_mode.locked) :
    (session_step cfg lookup s session_event.malformed).device_type = s.device_type ∧
      (s.badcount + 1 ≤ cfg.bad_threshold →
        session_step cfg lookup s session_event.malformed =
          { s with badcount := s.badcount + 1 }) ∧
      (cfg.bad_threshold < s.badcount + 1 →
        session_step cfg lookup s session_event.malformed =
          { s with mode := session_mode.trial, sticky := false, badcount := 0 }) ∧
      ((session_step cfg lookup s session_event.malformed).mode = session_mode.trial ↔
        cfg.bad_threshold < s.badcount + 1) ∧
      (∀ k, s.badcount + k ≤ cfg.bad_threshold →
        feed_malformed cfg lookup s k = { s with badcount := s.badcount + k }) ∧
      (s.badcount ≤ cfg.bad_threshold →
        feed_malformed cfg lookup s (cfg.bad_threshold - s.badcount + 1) =
          { s with mode := session_mode.trial, sticky := false, badcount := 0 }) := by
  have hstep : session_step cfg lookup s session_event.malformed = locked_malformed cfg s := by
    simp [session_step, h]
  refine ⟨?_, ?_, ?_, ?_, ?_, ?_⟩
  · rw [hstep]
    unfold locked_malformed
    split <;> rfl
  · intro hle
    have hlt : ¬ cfg.bad_threshold < s.badcount + 1 := by omega
    rw [hstep]
    simp [locked_malformed, hlt]
  · intro hlt
    rw [hstep]
    simp [locked_malformed, hlt]
  · rw [hstep]
    unfold locked_malformed
    split
    · simp [*]
    · simp [*]
  · intro k hk
    exact feed_malformed_below cfg lookup k s h hk
  · intro hle
    have hsplit : ∀ (j : Nat) (t : session_t),
        feed_malformed cfg lookup t (j + 1) =
          session_step cfg lookup (feed_malformed cfg lookup t j) session_event.malformed := by
      intro j
      induction j with
      | zero => intro t; rfl
      | succ j ih => intro t; rw [feed_malformed, ih]; rfl
    rw [hsplit, feed_malformed_below cfg lookup _ s h (by omega)]
    have hlt : cfg.bad_threshold < s.badcount + (cfg.bad_threshold - s.badcount) + 1 := by omega
    simp [session_step, h, locked_malformed, hlt]

/-- C9 at a session locked on an NMEA driver with one bad packet already
counted and a bad-packet threshold of 2. -/
theorem stickiness_witness :
    sample_session.mode = session_mode.locked ∧
      (session_step sample_config sample_registry sample_session
          session_event.malformed).device_type = sample_session.device_type ∧
      (sample_session.badcount + 1 ≤ sample_config.bad_threshold →
        session_step sample_config sample_registry sample_session session_event.malformed =
          { sample_session with badcount := sample_session.badcount + 1 }) ∧
      (sample_config.bad_threshold < sample_session.badcount + 1 →
        session_step sample_config sample_registry sample_session session_event.malformed =
          { sample_session with mode := session_mode.trial, sticky := false, badcount := 0 }) ∧
      ((session_step sample_config sample_registry sample_session
          session_event.malformed).mode = session_mode.trial ↔
        sample_config.bad_threshold < sample_session.badcount + 1) ∧
      (∀ k, sample_session.badcount + k ≤ sample_config.bad_threshold →
        feed_malformed sample_config sample_registry sample_session k =
          { sample_session with badcount := sample_session.badcount + k }) ∧
      (sample_session.badcount ≤ sample_config.bad_threshold →
        feed_malformed sample_config sample_registry sample_session
            (sample_config.bad_threshold - sample_session.badcount + 1) =
          { sample_session with mode := session_mode.trial, sticky := false, badcount := 0 }) :=
  ⟨rfl, stickiness sample_config sample_registry sample_session rfl⟩

/-! ## Bit deframer: the rolling window -/

theorem nmea_packet_length (b : List Nat) : (nmea_packet b).length = b.length + 6 := by
  simp [nmea_packet, nmea_frame]

/-! ## Sub-records of an accepted packet -/

/-- A result that fits the type is stored as it is. -/
theorem wrap_int_fits (bits : Nat) (v : Int) (h : fits bits v = true) : wrap_int bits v = v := by
  have hM : (0 : Int) < 2 ^ (bits - 1) := by positivity
  simp only [fits, Bool.and_eq_true, decide_eq_true_eq] at h
  unfold wrap_int
  generalize (2 : Int) ^ (bits - 1) = M at hM h ⊢
  rw [Int.emod_eq_of_lt (by omega) (by omega)]
  omega

/-- A `long` has room for every value below `2^31` in absolute value. -/
theorem fits_long (lw : Nat) (v : Int) (hl : 32 ≤ lw) (h0 : -2147483648 ≤ v)
    (h1 : v < 2147483648) : fits lw v = true := by
  have hp : (2 : Int) ^ 31 ≤ 2 ^ (lw - 1) := pow_le_pow_right₀ (by norm_num) (by omega)
  simp only [fits, Bool.and_eq_true, decide_eq_true_eq]
  norm_num at hp
  constructor <;> omega

/-- C12, as stated, fails: `TS_NORM` carries one second only, so a `tv_nsec`
of 2000000000 is left at 1000000000 and one of -1500000000 at -500000000;
likewise `TV_NORM` leaves a `tv_usec` of 2000000 at 1000000. -/
theorem ts_norm_out_of_range :
    (TS_NORM 64 { tv_sec := 0, tv_nsec := 2000000000 }).tv_nsec = 1000000000 ∧
      ¬ (TS_NORM 64 { tv_sec := 0, tv_nsec := 2000000000 }).tv_nsec < 1000000000 ∧
      ¬ 0 ≤ (TS_NORM 64 { tv_sec := 0, tv_nsec := -1500000000 }).tv_nsec ∧
      ¬ (TV_NORM 64 { tv_sec := 0, tv_usec := 2000000 }).tv_usec < 1000000 := by
  decide

/-- C12, amended: after `TS_NORM` the nanoseconds are within 0 and 999999999
exactly for the timespecs that were at most one second out of that range, and
after `TV_NORM` the microseconds are within 0 and 999999 exactly for the
timevals that were at most one second out of that range; this for every width
of `time_t`. -/
theorem ts_norm_range (tw : Nat) (ts : timespec) (tv : timeval) :
    ((0 ≤ (TS_NORM tw ts).tv_nsec ∧ (TS_NORM tw ts).tv_nsec < 1000000000) ↔
        (-1000000000 ≤ ts.tv_nsec ∧ ts.tv_nsec < 2000000000)) ∧
      ((0 ≤ (TV_NORM tw tv).tv_usec ∧ (TV_NORM tw tv).tv_usec < 1000000) ↔
        (-1000000 ≤ tv.tv_usec ∧ tv.tv_usec < 2000000)) := by
  constructor
  · unfold TS_NORM
    split_ifs <;> (try simp only) <;> omega
  · unfold TV_NORM
    split_ifs <;> (try simp only) <;> omega

/-- C13, as stated, fails at the largest `tv_sec`: with a `time_t` of 64 bits
and `tv_nsec` = 999999500 the carry overflows `tv_sec`, which becomes the
smallest `time_t`, and the result is not the rounded instant; the same with a
`time_t` of 32 bits. -/
theorem tstotv_carry_overflow :
    fits 64 9223372036854775807 = true ∧
      (TSTOTV 64 64 { tv_sec := 9223372036854775807, tv_nsec := 999999500 }).tv_sec =
        -9223372036854775808 ∧
      timeval_us (TSTOTV 64 64 { tv_sec := 9223372036854775807, tv_nsec := 999999500 }) ≠
        Int.fdiv (timespec_ns { tv_sec := 9223372036854775807, tv_nsec := 999999500 } + 500)
          1000 ∧
      fits 32 2147483647 = true ∧
      (TSTOTV 32 64 { tv_sec := 2147483647, tv_nsec := 999999500 }).tv_sec = -2147483648 := by
  decide

/-- C13, amended: for a timespec with nanoseconds within 0 and 999999999,
other than one whose `tv_sec` is the largest `time_t` while the nanoseconds
are 999999500 or more, `TSTOTV` gives microseconds within 0 and 999999 and the
instant rounded to the nearest microsecond, `floor((tv_sec * 10^9 + tv_nsec +
500) / 1000)`; the result is within 500 ns of the input, and nanoseconds from
999999500 on carry into the seconds.  This for every width of `time_t` and
every `long` of at least 32 bits. -/
theorem tstotv_rounds (tw lw : Nat) (ts : timespec) (hl : 32 ≤ lw)
    (h0 : 0 ≤ ts.tv_nsec) (h1 : ts.tv_nsec < 1000000000)
    (hc : 999999500 ≤ ts.tv_nsec → fits tw (ts.tv_sec + 1) = true) :
    0 ≤ (TSTOTV tw lw ts).tv_usec ∧ (TSTOTV tw lw ts).tv_usec < 1000000 ∧
      timeval_us (TSTOTV tw lw ts) = Int.fdiv (timespec_ns ts + 500) 1000 ∧
      -500 ≤ 1000 * timeval_us (TSTOTV tw lw ts) - timespec_ns ts ∧
      1000 * timeval_us (TSTOTV tw lw ts) - timespec_ns ts ≤ 500 ∧
      (999999500 ≤ ts.tv_nsec →
        (TSTOTV tw lw ts).tv_sec = ts.tv_sec + 1 ∧ (TSTOTV tw lw ts).tv_usec = 0) ∧
      (ts.tv_nsec < 999999500 → (TSTOTV tw lw ts).tv_sec = ts.tv_sec) := by
  have hw : wrap_int lw (ts.tv_nsec + 500) = ts.tv_nsec + 500 :=
    wrap_int_fits lw _ (fits_long lw _ hl (by omega) (by omega))
  have hdiv : Int.tdiv (ts.tv_nsec + 500) 1000 = (ts.tv_nsec + 500) / 1000 :=
    Int.tdiv_eq_ediv (by omega) (by norm_num)
  have hfloor : Int.fdiv (timespec_ns ts + 500) 1000 = (timespec_ns ts + 500) / 1000 :=
    Int.fdiv_eq_ediv _ (by norm_num)
  have hns : timespec_ns ts = ts.tv_sec * 1000000000 + ts.tv_nsec := by
    simp only [timespec_ns]
    norm_num
  rw [hfloor, hns]
  by_cases hc1 : 999999500 ≤ ts.tv_nsec
  · have hq : (ts.tv_nsec + 500) / 1000 = 1000000 := by omega
    have e : TSTOTV tw lw ts = { tv_sec := ts.tv_sec + 1, tv_usec := 0 } := by
      simp [TSTOTV, TV_NORM, hw, hdiv, hq, wrap_int_fits tw _ (hc hc1)]
    have hus : timeval_us (TSTOTV tw lw ts) = (ts.tv_sec + 1) * 1000000 := by
      rw [e]
      simp only [timeval_us]
      norm_num
    rw [hus, e]
    refine ⟨le_refl _, by norm_num, by omega, by omega, by omega, fun _ => ⟨rfl, rfl⟩, ?_⟩
    intro h
    omega
  · have hq0 : 0 ≤ (ts.tv_nsec + 500) / 1000 := by omega
    have hq1 : (ts.tv_nsec + 500) / 1000 < 1000000 := by omega
    have e : TSTOTV tw lw ts =
        { tv_sec := ts.tv_sec, tv_usec := (ts.tv_nsec + 500) / 1000 } := by
      simp only [TSTOTV, TV_NORM, hw, hdiv]
      rw [if_neg (by omega), if_neg (by omega)]
    have hus : timeval_us (TSTOTV tw lw ts) =
        ts.tv_sec * 1000000 + (ts.tv_nsec + 500) / 1000 := by
      rw [e]
      simp only [timeval_us]
      norm_num
    rw [hus, e]
    refine ⟨hq0, hq1, by omega, by omega, by omega, ?_, fun _ => rfl⟩
    intro h
    omega

/-- C13 amended, at one second before the epoch plus 999999500 ns, with
`time_t` and `long` of 64 bits. -/
theorem tstotv_rounds_witness :
    (TSTOTV 64 64 { tv_sec := -1, tv_nsec := 999999500 }).tv_usec = 0 ∧
      (TSTOTV 64 64 { tv_sec := -1, tv_nsec := 999999500 }).tv_sec = 0 ∧
      timeval_us (TSTOTV 64 64 { tv_sec := -1, tv_nsec := 999999500 }) =
        Int.fdiv (timespec_ns { tv_sec := -1, tv_nsec := 999999500 } + 500) 1000 :=
  ⟨((tstotv_rounds 64 64 { tv_sec := -1, tv_nsec := 999999500 } (by decide) (by decide)
      (by decide) (fun _ => by decide)).2.2.2.2.2.1 (by decide)).2,
    ((tstotv_rounds 64 64 { tv_sec := -1, tv_nsec := 999999500 } (by decide) (by decide)
      (by decide) (fun _ => by decide)).2.2.2.2.2.1 (by decide)).1,
    (tstotv_rounds 64 64 { tv_sec := -1, tv_nsec := 999999500 } (by decide) (by decide)
      (by decide) (fun _ => by decide)).2.2.1⟩

/-- C19, as stated, fails where a member overflows: with a `time_t` of 64 bits
`TS_NORM` takes the largest `tv_sec` with `tv_nsec` = 1000000000 to the
smallest `tv_sec`, another instant; and with a `long` of 64 bits `TVTOTS` on
`tv_usec` = 9223372036854776, whose product with 1000 does not fit, is not
exact. -/
theorem norm_overflow :
    fits 64 9223372036854775807 = true ∧ fits 64 1000000000 = true ∧
      TS_NORM 64 { tv_sec := 9223372036854775807, tv_nsec := 1000000000 } =
        { tv_sec := -9223372036854775808, tv_nsec := 0 } ∧
      timespec_ns (TS_NORM 64 { tv_sec := 9223372036854775807, tv_nsec := 1000000000 }) ≠
        timespec_ns { tv_sec := 9223372036854775807, tv_nsec := 1000000000 } ∧
      fits 64 9223372036854776 = true ∧
      timespec_ns (TVTOTS 64 64 { tv_sec := 0, tv_usec := 9223372036854776 }) ≠
        1000 * timeval_us { tv_sec := 0, tv_usec := 9223372036854776 } := by
  decide

/-- C19, amended: `TS_NORM` and `TV_NORM` keep the instant of every timespec
and timeval for which the second they carry or borrow fits `time_t`, and
`TVTOTS` is exact, its timespec being 1000 times the instant of the timeval,
for every timeval whose `tv_usec*1000` fits `long` and for which the second
carried or borrowed fits `time_t`. -/
theorem norm_keeps_instant (tw lw : Nat) (ts : timespec) (tv : timeval) :
    ((1000000000 ≤ ts.tv_nsec → fits tw (ts.tv_sec + 1) = true) →
        (ts.tv_nsec < 0 → fits tw (ts.tv_sec - 1) = true) →
        timespec_ns (TS_NORM tw ts) = timespec_ns ts) ∧
      ((1000000 ≤ tv.tv_usec → fits tw (tv.tv_sec + 1) = true) →
        (tv.tv_usec < 0 → fits tw (tv.tv_sec - 1) = true) →
        timeval_us (TV_NORM tw tv) = timeval_us tv) ∧
      (fits lw (tv.tv_usec * 1000) = true →
        (1000000 ≤ tv.tv_usec → fits tw (tv.tv_sec + 1) = true) →
        (tv.tv_usec < 0 → fits tw (tv.tv_sec - 1) = true) →
        timespec_ns (TVTOTS tw lw tv) = 1000 * timeval_us tv) := by
  have hts : ∀ t : timespec,
      (1000000000 ≤ t.tv_nsec → fits tw (t.tv_sec + 1) = true) →
      (t.tv_nsec < 0 → fits tw (t.tv_sec - 1) = true) →
      timespec_ns (TS_NORM tw t) = timespec_ns t := by
    intro t hcarry hborrow
    by_cases h1 : 1000000000 ≤ t.tv_nsec
    · simp only [TS_NORM, if_pos h1, timespec_ns, wrap_int_fits tw _ (hcarry h1)]
      norm_num
      omega
    · by_cases h2 : t.tv_nsec < 0
      · have h2' : 0 > t.tv_nsec := h2
        simp only [TS_NORM, if_neg h1, if_pos h2', timespec_ns,
          wrap_int_fits tw _ (hborrow h2)]
        norm_num
        omega
      · have h2' : ¬ 0 > t.tv_nsec := h2
        simp only [TS_NORM, if_neg h1, if_neg h2']
  refine ⟨hts ts, ?_, ?_⟩
  · intro hcarry hborrow
    by_cases h1 : 1000000 ≤ tv.tv_usec
    · simp only [TV_NORM, if_pos h1, timeval_us, wrap_int_fits tw _ (hcarry h1)]
      norm_num
      omega
    · by_cases h2 : tv.tv_usec < 0
      · have h2' : 0 > tv.tv_usec := h2
        simp only [TV_NORM, if_neg h1, if_pos h2', timeval_us,
          wrap_int_fits tw _ (hborrow h2)]
        norm_num
        omega
      · have h2' : ¬ 0 > tv.tv_usec := h2
        simp only [TV_NORM, if_neg h1, if_neg h2']
  · intro hmul hcarry hborrow
    have e := hts { tv_sec := tv.tv_sec, tv_nsec := tv.tv_usec * 1000 }
      (fun h => hcarry (by simp only at h; omega))
      (fun h => hborrow (by simp only at h; omega))
    simp only [TVTOTS, wrap_int_fits lw _ hmul]
    rw [e]
    simp only [timespec_ns, timeval_us]
    norm_num
    ring

/-- C19 amended, with `time_t` and `long` of 64 bits: a timespec and a timeval
one second and a half out of range at the low end resp. half a second at the
high end. -/
theorem norm_keeps_instant_witness :
    timespec_ns (TS_NORM 64 { tv_sec := 5, tv_nsec := -500000000 }) =
        timespec_ns { tv_sec := 5, tv_nsec := -500000000 } ∧
      timeval_us (TV_NORM 64 { tv_sec := 3, tv_usec := 1500000 }) =
        timeval_us { tv_sec := 3, tv_usec := 1500000 } ∧
      timespec_ns (TVTOTS 64 64 { tv_sec := 3, tv_usec := 1500000 }) =
        1000 * timeval_us { tv_sec := 3, tv_usec := 1500000 } :=
  ⟨(norm_keeps_instant 64 64 { tv_sec := 5, tv_nsec := -500000000 }
      { tv_sec := 3, tv_usec := 1500000 }).1 (by decide) (by decide),
    (norm_keeps_instant 64 64 { tv_sec := 5, tv_nsec := -500000000 }
      { tv_sec := 3, tv_usec := 1500000 }).2.1 (by decide) (by decide),
    (norm_keeps_instant 64 64 { tv_sec := 5, tv_nsec := -500000000 }
      { tv_sec := 3, tv_usec := 1500000 }).2.2 (by decide) (by decide) (by decide)⟩

/-! ## Constants -/

/-- C14, as stated, fails: 6 Jan 1981 00:00:00 UTC is the Unix time
347587200, not `GPS_EPOCH`. -/
theorem gps_epoch_not_1981 :
    unix_midnight 1981 1 6 = 347587200 ∧ GPS_EPOCH ≠ unix_midnight 1981 1 6 := by
  decide

/-- C14, amended: `GPS_EPOCH` is the Unix time of 6 Jan 1980 00:00:00 UTC,
3657 days of 86400 seconds after 1 Jan 1970. -/
theorem gps_epoch_1980 :
    GPS_EPOCH = unix_midnight 1980 1 6 ∧ GPS_EPOCH = 3657 * SECS_PER_DAY ∧
      SECS_PER_DAY = 86400 := by
  decide

/-- C15, the code at the failing input: `MAX_OUT_BUF_RECORDS` is below
`(MAX_PACKET_LENGTH*2+1)/3`, which is 344, and 313 sub-records of three bytes
fit the out-buffer. -/
theorem max_out_buf_records_short :
    MAX_OUT_BUF_RECORDS = 312 ∧ PACKET_BUFFER_SIZE / 3 = 344 ∧
      MAX_OUT_BUF_RECORDS < PACKET_BUFFER_SIZE / 3 ∧
      3 * (MAX_OUT_BUF_RECORDS + 1) ≤ PACKET_BUFFER_SIZE ∧
      overfull_records.length = MAX_OUT_BUF_RECORDS + 1 := by
  refine ⟨rfl, by decide, by decide, by decide, ?_⟩
  exact List.length_replicate _ _

/-- C16: `MAX_PACKET_LENGTH` is 7 + 506 + 3 = 516, above the sizes its comment
names (188, 206, 512), above `NMEA_MAX` and above `NMEA_BIG_BUF` = 183; the
buffers of `MAX_PACKET_LENGTH*2+1` = 1033 bytes hold two packets of maximum
length and a terminator, and four NMEA sentences of maximum length. -/
theorem packet_buffer_sizes :
    MAX_PACKET_LENGTH = 7 + 506 + 3 ∧ MAX_PACKET_LENGTH = 516 ∧
      188 < MAX_PACKET_LENGTH ∧ 206 < MAX_PACKET_LENGTH ∧ 512 < MAX_PACKET_LENGTH ∧
      NMEA_MAX < MAX_PACKET_LENGTH ∧
      NMEA_BIG_BUF = 2 * NMEA_MAX + 1 ∧ NMEA_BIG_BUF = 183 ∧ NMEA_BIG_BUF < MAX_PACKET_LENGTH ∧
      PACKET_BUFFER_SIZE = 1033 ∧
      2 * MAX_PACKET_LENGTH + 1 ≤ PACKET_BUFFER_SIZE ∧
      4 * NMEA_MAX ≤ PACKET_BUFFER_SIZE := by
  decide

/-! ## Buffered input and the GPS type mask -/

/-- C17: for a lexer whose read cursor is within the buffered data, and the
data within the buffer, `packet_buffered_input` is the number of bytes
buffered but not yet scanned, `inbuflen - p`: between 0 and `inbuflen`, 0
exactly when the cursor is at the end of the data, and `p` plus it is
`inbuflen`. -/
theorem packet_buffered_input_count (base : Nat) (lexer : gps_packet_t)
    (hp : lexer.inbufptr ≤ lexer.inbuffer.length)
    (hcap : lexer.inbuffer.length ≤ PACKET_BUFFER_SIZE) :
    packet_buffered_input base lexer = (lexer.inbuffer.length : Int) - lexer.inbufptr ∧
      packet_buffered_input base lexer = ((lexer.inbuffer.drop lexer.inbufptr).length : Int) ∧
      0 ≤ packet_buffered_input base lexer ∧
      packet_buffered_input base lexer ≤ lexer.inbuffer.length ∧
      packet_buffered_input base lexer ≤ PACKET_BUFFER_SIZE ∧
      (packet_buffered_input base lexer = 0 ↔ lexer.inbufptr = lexer.inbuffer.length) ∧
      (lexer.inbufptr : Int) + packet_buffered_input base lexer = lexer.inbuffer.length := by
  unfold packet_buffered_input
  rw [List.length_drop]
  refine ⟨?_, ?_, ?_, ?_, ?_, ?_, ?_⟩ <;> omega

/-- C17 at a lexer that has scanned the first of the two sample sentences. -/
theorem packet_buffered_input_count_witness :
    packet_buffered_input 4096 { two_sentence_lexer with inbufptr := 7 } = 7 ∧
      ((7 : Nat) : Int) + packet_buffered_input 4096 { two_sentence_lexer with inbufptr := 7 } =
        (14 : Nat) :=
  ⟨(packet_buffered_input_count 4096 { two_sentence_lexer with inbufptr := 7 } (by decide)
      (by decide)).1,
    (packet_buffered_input_count 4096 { two_sentence_lexer with inbufptr := 7 } (by decide)
      (by decide)).2.2.2.2.2.2⟩

/-- C18, the code at the failing input: `GPS_TYPEMASK` is 0x7fffe, the bits 1
to 18, so the bit of `RTCM2_PACKET` (18) is set in it although
`GPS_PACKET_TYPE(RTCM2_PACKET)` is false; for the other tags from 0 to 20 the
bit is set exactly when `GPS_PACKET_TYPE` holds. -/
theorem gps_typemask_rtcm2_bit :
    GPS_TYPEMASK = some 0x7fffe ∧
      gps_typemask_bit RTCM2_PACKET = some 0x40000 ∧
      GPS_PACKET_TYPE RTCM2_PACKET = false ∧
      (∀ n : Int, 0 ≤ n → n ≤ 20 → n ≠ RTCM2_PACKET →
        ∃ v, gps_typemask_bit n = some v ∧ (v ≠ 0 ↔ GPS_PACKET_TYPE n = true)) := by
  refine ⟨by decide, by decide, by decide, ?_⟩
  intro n h0 h1 hne
  obtain ⟨k, rfl⟩ := Int.eq_ofNat_of_zero_le h0
  have hk : k ≤ 20 := by omega
  interval_cases k <;> first
    | exact absurd rfl hne
    | exact ⟨_, rfl, by decide⟩

end Gpsd
